import Mathlib

/-!
Verification of the StreamScout enrichment and resilience pipeline.

Shallow embedding of the core components of the repository:
validation (`lib/validation.ts`), the in-memory TTL cache (`lib/cache.ts`),
the token-bucket rate limiter (`lib/rate-limiter.ts`), the three upstream
clients (`lib/tmdb.ts`, `lib/omdb.ts`, `lib/streaming.ts`), the enrichment
orchestrator (`app/api/enrich/route.ts`) and the health endpoint
(`app/api/health/route.ts`).

JavaScript conventions used by the embedding:
* nullable / possibly-`undefined` values become `Option`;
* `parseInt(s, 10)` is modelled by `jsParseInt10` (skip leading whitespace,
  optional sign, longest digit run, `NaN` ↦ `none`);
* `String.prototype.trim` is modelled by `jsTrim` over the ASCII whitespace
  characters;
* JavaScript truthiness on a possibly-absent number is `none` or `some 0`
  falsy (`jsTruthy`), on a possibly-absent string `none` or `some ""` falsy
  (`jsTruthyStr`);
* promise-returning upstream calls take their outcome (`Except`/variant
  types) as an explicit argument, so a route handler becomes a pure
  function of the request and the upstream outcomes.
-/

namespace StreamScout

/-! ## Validation (`lib/validation.ts`) -/

/-- The `{ valid: boolean; error?: string }` result shape of `lib/validation.ts`. -/
inductive ValidationResult where
  | valid
  | invalid (error : String)
deriving DecidableEq, Repr

/-- The ASCII whitespace characters stripped by `trim` and skipped by `parseInt`. -/
def isJsWhitespace (c : Char) : Bool :=
  c = ' ' || c = '\t' || c = '\n' || c = '\r' || c = '\x0b' || c = '\x0c'

/-- `String.prototype.trim`: drop whitespace from both ends. -/
def jsTrim (s : String) : String :=
  ⟨((s.toList.dropWhile isJsWhitespace).reverse.dropWhile isJsWhitespace).reverse⟩

/-- Value of a base-10 digit run. -/
def digitsToNat (ds : List Char) : Nat :=
  ds.foldl (fun acc c => 10 * acc + (c.toNat - 48)) 0

/-- Longest leading digit run, `none` when there is no digit (`parseInt` yields `NaN`). -/
def parseDigits (cs : List Char) : Option Nat :=
  let ds := cs.takeWhile Char.isDigit
  if ds.isEmpty then none else some (digitsToNat ds)

/-- `parseInt(s, 10)`: skip leading whitespace, optional sign, longest digit run. -/
def jsParseInt10 (s : String) : Option Int :=
  match s.toList.dropWhile isJsWhitespace with
  | '-' :: rest => (parseDigits rest).map (fun n => -(n : Int))
  | '+' :: rest => (parseDigits rest).map (fun n => (n : Int))
  | cs => (parseDigits cs).map (fun n => (n : Int))

/-- `validateMovieId` of `lib/validation.ts`: the argument is the raw
(possibly missing) `id` query parameter. -/
def validateMovieId : Option String → ValidationResult
  | none => .invalid "Movie ID is required"
  | some id =>
    if id = "" then .invalid "Movie ID is required"
    else
      match jsParseInt10 id with
      | none => .invalid "Movie ID must be a valid number"
      | some parsed =>
        if parsed ≤ 0 then .invalid "Movie ID must be a positive number"
        else if parsed > 10000000 then .invalid "Movie ID exceeds maximum value"
        else if id ≠ toString parsed then .invalid "Movie ID must be an integer"
        else .valid

/-- The control characters rejected by `validateSearchQuery`'s regex
`[\x00-\x08\x0B-\x0C\x0E-\x1F]`. -/
def isDisallowedControl (c : Char) : Bool :=
  c.toNat ≤ 0x08 || (0x0B ≤ c.toNat && c.toNat ≤ 0x0C) || (0x0E ≤ c.toNat && c.toNat ≤ 0x1F)

/-- `validateSearchQuery` of `lib/validation.ts`. -/
def validateSearchQuery : Option String → ValidationResult
  | none => .invalid "Query parameter is required"
  | some query =>
    if query = "" then .invalid "Query parameter is required"
    else
      let trimmed := jsTrim query
      if trimmed.length = 0 then .invalid "Query cannot be empty"
      else if trimmed.length > 200 then .invalid "Query cannot exceed 200 characters"
      else if trimmed.toList.any isDisallowedControl then
        .invalid "Query contains invalid control characters"
      else .valid

/-! Decidable forms of the spec's validity predicates (claims C5 and C6), for
comparison with the code's validators. -/

/-- Spec's C5 predicate: `id` parses as an integer `n` with
`0 < n ≤ 10000000` and `str(n) = trim(id)`. -/
def movieIdClaimValid (id : String) : Bool :=
  match jsParseInt10 id with
  | some n => decide (0 < n) && decide (n ≤ 10000000) && (toString n == jsTrim id)
  | none => false

/-- Membership of the full ASCII control range `0x00`–`0x1F` (the range the
C6 claim says is rejected). -/
def containsControlFull (s : String) : Bool :=
  s.toList.any (fun c => c.toNat ≤ 0x1F)

/-- The amended C5 predicate: as the claim, but the round-tripped string
form must equal the raw input, not its trimmed form. -/
def movieIdAmendedValid (id : String) : Bool :=
  match jsParseInt10 id with
  | some n => decide (0 < n) && decide (n ≤ 10000000) && (toString n == id)
  | none => false

/-- C5 — counterexample. The input `" 123"` (leading space) satisfies the
claim's condition — `parseInt` skips the whitespace and yields `123`, whose
string form equals the trimmed input — yet `validateMovieId` rejects it,
because the code compares the round-tripped string against the raw, untrimmed
input. -/
theorem validateMovieId_claim_fails_on_padded_input :
    movieIdClaimValid " 123" = true ∧
    validateMovieId (some " 123") = .invalid "Movie ID must be an integer" := by
  decide

/-- C5 — amended. `validateMovieId id` is valid iff `id` parses as a base-10
integer `n` with `0 < n ≤ 10000000` and the string form of `n` is exactly
equal to the raw input string (no trimming). -/
theorem validateMovieId_valid_iff (s : String) :
    validateMovieId (some s) = .valid ↔ movieIdAmendedValid s = true := by
  simp only [validateMovieId, movieIdAmendedValid]
  by_cases hs : s = ""
  · subst hs
    simp [jsParseInt10, parseDigits]
  · rw [if_neg hs]
    cases h : jsParseInt10 s with
    | none => simp
    | some n =>
      simp only [Bool.and_eq_true, decide_eq_true_eq, beq_iff_eq]
      split_ifs with h1 h2 h3
      · simp; omega
      · simp; omega
      · simp; tauto
      · simp
        exact ⟨⟨by omega, by omega⟩, by tauto⟩

/-- C6 — counterexample. The query `"a\tb"` contains the control character
TAB (`0x09`), which lies in the claim's full range `0x00`–`0x1F`, yet
`validateSearchQuery` accepts it: the code's regex deliberately leaves out
`0x09`, `0x0A` and `0x0D`. -/
theorem validateSearchQuery_claim_fails_on_tab :
    validateSearchQuery (some "a\tb") = .valid ∧
    containsControlFull (jsTrim "a\tb") = true := by
  decide

/-- C6 — amended. `validateSearchQuery q` is valid iff the trimmed form of
`q` has length between 1 and 200 and contains no ASCII control characters
other than TAB (`0x09`), LF (`0x0A`) and CR (`0x0D`). -/
theorem validateSearchQuery_valid_iff (q : String) :
    validateSearchQuery (some q) = .valid ↔
      (1 ≤ (jsTrim q).length ∧ (jsTrim q).length ≤ 200 ∧
        (jsTrim q).toList.any isDisallowedControl = false) := by
  simp only [validateSearchQuery]
  by_cases hq : q = ""
  · subst hq
    simp [jsTrim]
  · rw [if_neg hq]
    split_ifs with h1 h2 h3
    · simp; omega
    · simp; omega
    · simp
      intro _ _
      exact List.any_eq_true.mp h3
    · simp_all; omega

/-! ## Data model (`lib/types.ts`) -/

/-- A TMDB video entry (`videos.results` element). -/
structure TMDBVideo where
  key : String
  type : String
  site : String
  official : Bool
deriving DecidableEq, Repr

/-- A TMDB genre. -/
structure TMDBGenre where
  id : Nat
  name : String
deriving DecidableEq, Repr

/-- TMDB movie-details payload, with the fields the enrich route reads.
Nullable / possibly-missing fields are `Option`. -/
structure TMDBMovieDetails where
  id : Nat
  title : String
  release_date : Option String
  poster_path : Option String
  overview : String
  runtime : Option Nat
  genres : List TMDBGenre
  imdb_id : Option String
  videos : Option (List TMDBVideo)
deriving DecidableEq, Repr

/-- OMDb payload as the enrich route consumes it: `imdbRating` is the
`parseFloat` result when the `imdbRating` string field is truthy
(`none` when the field is missing or the empty string), `rtScore` the
`parseRottenTomatoesScore` result on the `Ratings` array. -/
structure OMDbData where
  imdbRating : Option ℚ
  rtScore : Option ℚ
deriving DecidableEq, Repr

/-- One normalized streaming option (`lib/types.ts` `StreamingOption`). -/
structure StreamingOption where
  service : String
  type : String
  link : String
deriving DecidableEq, Repr

/-- The `rating` sub-object of `EnrichedMovie`. -/
structure RatingInfo where
  imdb : Option ℚ
  rottenTomatoes : Option ℚ
  combined : Option ℚ
deriving DecidableEq, Repr

/-- The merged output record of the enrich route. -/
structure EnrichedMovie where
  id : Nat
  title : String
  year : String
  poster : String
  overview : String
  rating : RatingInfo
  streamingOptions : List StreamingOption
  runtime : Option Nat
  genres : List String
  trailerKey : Option String
deriving DecidableEq, Repr

/-! ## Rating aggregation (`app/api/enrich/route.ts`, lines 103–115) -/

/-- JavaScript truthiness of a possibly-absent string: `undefined`/`null`
and `""` are falsy. -/
def jsTruthyStr : Option String → Bool
  | none => false
  | some s => s != ""

/-- Lines 107–115 of the enrich route: the `if (imdbRating && rtRating)`
chain, with JavaScript truthiness of a possibly-absent number expanded —
`undefined` and `0` are falsy, so a rating of exactly `0` falls through to
the next branch. -/
def aggregateRatings : Option ℚ → Option ℚ → Option ℚ
  | some imdbRating, some rtRating =>
    if imdbRating ≠ 0 ∧ rtRating ≠ 0 then some ((imdbRating + rtRating / 10) / 2)
    else if imdbRating ≠ 0 then some imdbRating
    else if rtRating ≠ 0 then some (rtRating / 10)
    else none
  | some imdbRating, none => if imdbRating ≠ 0 then some imdbRating else none
  | none, some rtRating => if rtRating ≠ 0 then some (rtRating / 10) else none
  | none, none => none

/-- The aggregation rule exactly as the C2 claim states it: presence means
`some`, with no special treatment of zero. -/
def combinedRatingSpec : Option ℚ → Option ℚ → Option ℚ
  | some p, some s => some ((p + s / 10) / 2)
  | some p, none => some p
  | none, some s => some (s / 10)
  | none, none => none

/-- The truthiness coercion implicit in the code: a rating of exactly `0`
is indistinguishable from an absent one. -/
def truthyRating : Option ℚ → Option ℚ
  | none => none
  | some q => if q = 0 then none else some q

/-- C2 — counterexample. With both ratings present, primary `0` and
secondary `87`, the claim's rule gives the mean `(0 + 87/10)/2 = 87/20`,
but the code's truthy check skips the zero primary rating and returns
`87/10`. -/
theorem aggregateRatings_claim_fails_on_zero :
    aggregateRatings (some 0) (some 87) = some (87 / 10) ∧
    combinedRatingSpec (some 0) (some 87) = some (87 / 20) ∧
    aggregateRatings (some 0) (some 87) ≠ combinedRatingSpec (some 0) (some 87) := by
  refine ⟨by norm_num [aggregateRatings], by norm_num [combinedRatingSpec], ?_⟩
  norm_num [aggregateRatings, combinedRatingSpec]

/-- C2 — amended. The code computes the claim's rule after first treating a
rating of exactly `0` as absent (the truthy-presence check): combined is the
mean of `p` and `s/10` when both are present and nonzero, the single
present-and-nonzero one otherwise, absent when neither is. The claim's
numeric examples hold: `8.8` and `87` give `8.75`; only `8.8` gives `8.8`;
only `60` gives `6`; neither gives absent. -/
theorem aggregateRatings_eq_spec_after_truthy :
    (∀ p s : Option ℚ,
      aggregateRatings p s = combinedRatingSpec (truthyRating p) (truthyRating s)) ∧
    aggregateRatings (some (88 / 10)) (some 87) = some (35 / 4) ∧
    aggregateRatings (some (88 / 10)) none = some (88 / 10) ∧
    aggregateRatings none (some 60) = some 6 ∧
    aggregateRatings none none = none := by
  refine ⟨?_, by norm_num [aggregateRatings], by norm_num [aggregateRatings],
    by norm_num [aggregateRatings], by norm_num [aggregateRatings]⟩
  intro p s
  cases p with
  | none =>
    cases s with
    | none => rfl
    | some s' =>
      by_cases hs : s' = 0 <;>
        simp [aggregateRatings, combinedRatingSpec, truthyRating, hs]
  | some p' =>
    cases s with
    | none =>
      by_cases hp : p' = 0 <;>
        simp [aggregateRatings, combinedRatingSpec, truthyRating, hp]
    | some s' =>
      by_cases hp : p' = 0 <;> by_cases hs : s' = 0 <;>
        simp [aggregateRatings, combinedRatingSpec, truthyRating, hp, hs]

/-! ## Enrichment orchestrator (`app/api/enrich/route.ts`) -/

/-- `getPosterUrl` of `lib/tmdb.ts`: a falsy (`null` or empty) poster path
yields the placeholder. -/
def getPosterUrl (posterPath : Option String) (size : String) : String :=
  match posterPath with
  | none => "/placeholder-poster.jpg"
  | some p =>
    if p = "" then "/placeholder-poster.jpg"
    else "https://image.tmdb.org/t/p/" ++ size ++ p

/-- `tmdbData.release_date?.split('-')[0] || 'Unknown'`. -/
def yearOf (release_date : Option String) : String :=
  match release_date with
  | none => "Unknown"
  | some d =>
    let y := (d.splitOn "-").headD ""
    if y = "" then "Unknown" else y

/-- Lines 97–101 of the enrich route: prefer an official YouTube trailer,
fall back to any YouTube trailer. -/
def findTrailer (videos : Option (List TMDBVideo)) : Option TMDBVideo :=
  match videos with
  | none => none
  | some results =>
    match results.find? (fun v => v.type == "Trailer" && v.site == "YouTube" && v.official) with
    | some t => some t
    | none => results.find? (fun v => v.type == "Trailer" && v.site == "YouTube")

/-- The enrich route's response: the enriched record on success, an error
message otherwise (paired below with the HTTP status). -/
inductive EnrichResult where
  | ok (movie : EnrichedMovie)
  | err (error : String)
deriving DecidableEq, Repr

/-- The `GET` handler of `app/api/enrich/route.ts` as a pure function of the
`id` query parameter and the outcomes of the three upstream calls: the
`Promise.allSettled` pair (TMDB details — critical, streaming availability —
optional) and the dependent, `try/catch`-guarded OMDb call. Returns the
response body and the HTTP status code. -/
def enrichGET (movieId : Option String)
    (tmdbOutcome : Except Unit TMDBMovieDetails)
    (streamingOutcome : Except Unit (List StreamingOption))
    (omdbOutcome : Except Unit (Option OMDbData)) : EnrichResult × Nat :=
  match validateMovieId movieId with
  | .invalid e => (.err e, 400)
  | .valid =>
    match tmdbOutcome with
    | .error _ => (.err "Failed to fetch movie details from TMDB", 500)
    | .ok tmdbData =>
      let streamingOptions : List StreamingOption :=
        match streamingOutcome with
        | .ok opts => opts
        | .error _ => []
      let omdbData : Option OMDbData :=
        if jsTruthyStr tmdbData.imdb_id then
          match omdbOutcome with
          | .ok d => d
          | .error _ => none
        else none
      let trailer := findTrailer tmdbData.videos
      let imdbRating := omdbData.bind OMDbData.imdbRating
      let rtRating := omdbData.bind OMDbData.rtScore
      let combinedRating := aggregateRatings imdbRating rtRating
      (.ok {
        id := tmdbData.id
        title := tmdbData.title
        year := yearOf tmdbData.release_date
        poster := getPosterUrl tmdbData.poster_path "w500"
        overview := tmdbData.overview
        rating := ⟨imdbRating, rtRating, combinedRating⟩
        streamingOptions := streamingOptions
        runtime := tmdbData.runtime
        genres := tmdbData.genres.map TMDBGenre.name
        trailerKey := trailer.map TMDBVideo.key }, 200)

/-- The streaming list of a successful enrich response. -/
def EnrichResult.streaming : EnrichResult → Option (List StreamingOption)
  | .ok m => some m.streamingOptions
  | .err _ => none

/-- C1. For an identifier that passes validation: the enrich route answers
500 exactly when the critical TMDB detail fetch failed; when TMDB succeeded
and the optional streaming fetch failed, it answers 200 with
`streamingOptions = []`; and when TMDB succeeded it answers 200 whatever the
outcome of the optional OMDb ratings fetch. -/
theorem enrichGET_error_iff_critical_fails (movieId : Option String)
    (tmdbOutcome : Except Unit TMDBMovieDetails)
    (streamingOutcome : Except Unit (List StreamingOption))
    (omdbOutcome : Except Unit (Option OMDbData))
    (hv : validateMovieId movieId = .valid) :
    ((enrichGET movieId tmdbOutcome streamingOutcome omdbOutcome).2 = 500 ↔
      tmdbOutcome = .error ()) ∧
    (∀ td, tmdbOutcome = .ok td → streamingOutcome = .error () →
      (enrichGET movieId tmdbOutcome streamingOutcome omdbOutcome).2 = 200 ∧
      (enrichGET movieId tmdbOutcome streamingOutcome omdbOutcome).1.streaming = some []) ∧
    (∀ td, tmdbOutcome = .ok td →
      (enrichGET movieId tmdbOutcome streamingOutcome omdbOutcome).2 = 200) := by
  unfold enrichGET
  rw [hv]
  cases tmdbOutcome with
  | error e => cases e; simp
  | ok td =>
    cases streamingOutcome with
    | error e => cases e; simp [EnrichResult.streaming]
    | ok opts => simp [EnrichResult.streaming]

/-- A concrete TMDB payload used to instantiate hypotheses. -/
def tmdbSample : TMDBMovieDetails :=
  { id := 603, title := "The Matrix", release_date := some "1999-03-30",
    poster_path := none, overview := "", runtime := some 136, genres := [],
    imdb_id := some "tt0133093", videos := none }

/-- C1 — witness: the theorem at identifier `"603"`, TMDB succeeding,
streaming failing and OMDb succeeding. -/
theorem enrichGET_error_iff_critical_fails_witness :
    ((enrichGET (some "603") (.ok tmdbSample) (.error ()) (.ok none)).2 = 500 ↔
      (Except.ok tmdbSample : Except Unit TMDBMovieDetails) = .error ()) ∧
    (∀ td, (Except.ok tmdbSample : Except Unit TMDBMovieDetails) = .ok td →
      (Except.error () : Except Unit (List StreamingOption)) = .error () →
      (enrichGET (some "603") (.ok tmdbSample) (.error ()) (.ok none)).2 = 200 ∧
      (enrichGET (some "603") (.ok tmdbSample) (.error ()) (.ok none)).1.streaming = some []) ∧
    (∀ td, (Except.ok tmdbSample : Except Unit TMDBMovieDetails) = .ok td →
      (enrichGET (some "603") (.ok tmdbSample) (.error ()) (.ok none)).2 = 200) :=
  enrichGET_error_iff_critical_fails (some "603") (.ok tmdbSample) (.error ()) (.ok none)
    (by decide)

/-! ## Upstream clients (`lib/tmdb.ts`, `lib/omdb.ts`, `lib/streaming.ts`)

Each client operation is embedded as a pure function of its inputs, the
cache lookup result and the fetch outcome, returning its result together
with the ordered list of effects it performs (cache probe, rate-limiter
acquisition, network call, cache store). -/

/-- A lightweight TMDB search result entry (`lib/types.ts` `TMDBMovie`). -/
structure TMDBMovie where
  id : Nat
  title : String
  release_date : Option String
  poster_path : Option String
  overview : String
  vote_average : Option ℚ
deriving DecidableEq, Repr

/-- TMDB search payload. -/
structure TMDBSearchResponse where
  results : List TMDBMovie
deriving DecidableEq, Repr

/-- The observable effects of a client operation, in program order. -/
inductive Effect where
  | cacheProbe (key : String) (hit : Bool)
  | rlAcquire (api : String)
  | netCall (url : String)
  | cacheStore (key : String)
deriving DecidableEq, Repr

/-- Whether an effect is a rate-limiter acquisition. -/
def Effect.isAcquire : Effect → Bool
  | .rlAcquire _ => true
  | _ => false

/-- Whether an effect is an outbound network call. -/
def Effect.isNet : Effect → Bool
  | .netCall _ => true
  | _ => false

/-- Minimal `encodeURIComponent`: unreserved characters pass through, every
other character is percent-encoded per UTF-8 byte. -/
def isUriUnreserved (c : Char) : Bool :=
  c.isAlphanum || c = '-' || c = '_' || c = '.' || c = '!' ||
    c = '~' || c = '*' || c = '\'' || c = '(' || c = ')'

/-- Upper-case hex digit. -/
def hexDigit (n : Nat) : Char :=
  if n < 10 then Char.ofNat (48 + n) else Char.ofNat (55 + n)

/-- UTF-8 bytes of a character. -/
def charUtf8Bytes (c : Char) : List Nat :=
  let n := c.toNat
  if n < 0x80 then [n]
  else if n < 0x800 then [0xC0 + n / 0x40, 0x80 + n % 0x40]
  else if n < 0x10000 then
    [0xE0 + n / 0x1000, 0x80 + (n / 0x40) % 0x40, 0x80 + n % 0x40]
  else
    [0xF0 + n / 0x40000, 0x80 + (n / 0x1000) % 0x40, 0x80 + (n / 0x40) % 0x40,
      0x80 + n % 0x40]

/-- `encodeURIComponent`. -/
def encodeURIComponent (s : String) : String :=
  ⟨(s.toList.map (fun c =>
      if isUriUnreserved c then [c]
      else (charUtf8Bytes c).map (fun b => ['%', hexDigit (b / 16), hexDigit (b % 16)])
        |>.flatten)).flatten⟩

def TMDB_BASE_URL : String := "https://api.themoviedb.org/3"
def OMDB_BASE_URL : String := "http://www.omdbapi.com/"
def STREAMING_BASE_URL : String := "https://streaming-availability.p.rapidapi.com"

/-- The URL built by `searchMovies` (`lib/tmdb.ts` line 25): the API key is
interpolated into the query string. -/
def tmdbSearchUrl (apiKey query : String) : String :=
  TMDB_BASE_URL ++ "/search/movie?api_key=" ++ apiKey ++ "&query=" ++
    encodeURIComponent query

/-- The URL built by `getMovieDetails` (`lib/tmdb.ts` line 73). -/
def tmdbMovieUrl (apiKey : String) (movieId : Nat) : String :=
  TMDB_BASE_URL ++ "/movie/" ++ toString movieId ++ "?api_key=" ++ apiKey ++
    "&append_to_response=videos"

/-- The URL built by `getOMDbRatings` (`lib/omdb.ts` line 30). -/
def omdbUrl (apiKey imdbId : String) : String :=
  OMDB_BASE_URL ++ "?apikey=" ++ apiKey ++ "&i=" ++ imdbId

/-- The URL built by `getStreamingAvailability` (`lib/streaming.ts`); its
credential travels in the `X-RapidAPI-Key` header, not the URL. -/
def streamingUrl (tmdbId : Nat) : String :=
  STREAMING_BASE_URL ++ "/get?tmdb_id=movie/" ++ toString tmdbId ++
    "&country=us&output_language=en"

/-- `searchMovies` of `lib/tmdb.ts`: cache probe, then on a miss the fetch
(throwing on a non-2xx status), normalization and cache store. No
rate-limiter acquisition appears anywhere in the function. -/
def searchMovies (apiKey query : String) (cached : Option TMDBSearchResponse)
    (fetchOutcome : Except Nat TMDBSearchResponse) :
    Except Nat TMDBSearchResponse × List Effect :=
  let cacheKey := "tmdb:search:" ++ query
  match cached with
  | some c => (.ok c, [.cacheProbe cacheKey true])
  | none =>
    let url := tmdbSearchUrl apiKey query
    match fetchOutcome with
    | .error status => (.error status, [.cacheProbe cacheKey false, .netCall url])
    | .ok data => (.ok data, [.cacheProbe cacheKey false, .netCall url, .cacheStore cacheKey])

/-- `getMovieDetails` of `lib/tmdb.ts` (lines 60–106), same shape as
`searchMovies`. -/
def getMovieDetails (apiKey : String) (movieId : Nat)
    (cached : Option TMDBMovieDetails) (fetchOutcome : Except Nat TMDBMovieDetails) :
    Except Nat TMDBMovieDetails × List Effect :=
  let cacheKey := "tmdb:movie:" ++ toString movieId
  match cached with
  | some c => (.ok c, [.cacheProbe cacheKey true])
  | none =>
    let url := tmdbMovieUrl apiKey movieId
    match fetchOutcome with
    | .error status => (.error status, [.cacheProbe cacheKey false, .netCall url])
    | .ok data => (.ok data, [.cacheProbe cacheKey false, .netCall url, .cacheStore cacheKey])

/-- Outcome of the OMDb fetch: network error, non-2xx status, a 2xx body
with `Response: 'False'`, or usable data. -/
inductive OMDbFetchOutcome where
  | netError
  | badStatus (status : Nat)
  | responseFalse
  | ok (data : OMDbData)
deriving DecidableEq, Repr

/-- `getOMDbRatings` of `lib/omdb.ts` (lines 12–71): missing key short-circuits
to `null`; cache probe; on a miss the fetch, with every failure mode mapped
to `null` and a success stored in the cache. -/
def getOMDbRatings (apiKey : Option String) (imdbId : String)
    (cached : Option OMDbData) (fetchOutcome : OMDbFetchOutcome) :
    Option OMDbData × List Effect :=
  if !jsTruthyStr apiKey then (none, [])
  else
    let key := apiKey.getD ""
    let cacheKey := "omdb:" ++ imdbId
    match cached with
    | some c => (some c, [.cacheProbe cacheKey true])
    | none =>
      let url := omdbUrl key imdbId
      match fetchOutcome with
      | .netError => (none, [.cacheProbe cacheKey false, .netCall url])
      | .badStatus _ => (none, [.cacheProbe cacheKey false, .netCall url])
      | .responseFalse => (none, [.cacheProbe cacheKey false, .netCall url])
      | .ok data => (some data, [.cacheProbe cacheKey false, .netCall url, .cacheStore cacheKey])

/-- Outcome of the streaming-availability fetch. -/
inductive StreamingFetchOutcome where
  | netError
  | badStatus (status : Nat)
  | ok (usOptions : Option (List StreamingOption))
deriving DecidableEq, Repr

/-- `getStreamingAvailability` of `lib/streaming.ts` (lines 11–52): missing
key short-circuits to `[]`; cache probe; on a miss the fetch, with failures
mapped to `[]` and `data.streamingOptions?.us || []` normalized and stored
on success. -/
def getStreamingAvailability (apiKey : Option String) (tmdbId : Nat)
    (cached : Option (List StreamingOption)) (fetchOutcome : StreamingFetchOutcome) :
    List StreamingOption × List Effect :=
  if !jsTruthyStr apiKey then ([], [])
  else
    let cacheKey := "streaming:" ++ toString tmdbId
    match cached with
    | some c => (c, [.cacheProbe cacheKey true])
    | none =>
      let url := streamingUrl tmdbId
      match fetchOutcome with
      | .netError => ([], [.cacheProbe cacheKey false, .netCall url])
      | .badStatus _ => ([], [.cacheProbe cacheKey false, .netCall url])
      | .ok usOptions => (usOptions.getD [], [.cacheProbe cacheKey false, .netCall url, .cacheStore cacheKey])

/-! Substring occurrence over character lists, for the credential-exposure
claim (C4). -/

/-- `listStartsWith l p`: `p` is an initial run of `l`. -/
def listStartsWith : List Char → List Char → Bool
  | _, [] => true
  | [], _ :: _ => false
  | a :: as, b :: bs => a == b && listStartsWith as bs

/-- `listOccurs l p`: `p` occurs as a contiguous run inside `l`. -/
def listOccurs : List Char → List Char → Bool
  | [], pat => pat.isEmpty
  | a :: rest, pat => listStartsWith (a :: rest) pat || listOccurs rest pat

/-- `key` occurs as a contiguous substring of `url`. -/
def urlContains (url key : String) : Bool :=
  listOccurs url.toList key.toList

theorem listStartsWith_append (p t : List Char) : listStartsWith (p ++ t) p = true := by
  induction p with
  | nil => simp [listStartsWith]
  | cons a as ih => simp [listStartsWith, ih]

theorem listOccurs_of_startsWith (l pat : List Char) (h : listStartsWith l pat = true) :
    listOccurs l pat = true := by
  cases l with
  | nil =>
    cases pat with
    | nil => rfl
    | cons b bs => simp [listStartsWith] at h
  | cons a rest => simp [listOccurs, h]

theorem listOccurs_append_left (pre l pat : List Char) (h : listOccurs l pat = true) :
    listOccurs (pre ++ l) pat = true := by
  induction pre with
  | nil => simpa using h
  | cons a as ih =>
    simp only [List.cons_append, listOccurs, Bool.or_eq_true]
    exact Or.inr ih

/-- C4. Contrary to the claim, the configured credential is interpolated
into the outbound URL by both TMDB operations and by the OMDb client: for
every key and request parameter, the key occurs verbatim in the URL the
client constructs. -/
theorem upstream_credential_in_url (apiKey query imdbId : String) (movieId : Nat) :
    urlContains (tmdbSearchUrl apiKey query) apiKey = true ∧
    urlContains (tmdbMovieUrl apiKey movieId) apiKey = true ∧
    urlContains (omdbUrl apiKey imdbId) apiKey = true := by
  refine ⟨?_, ?_, ?_⟩
  · unfold urlContains tmdbSearchUrl
    simp only [String.toList, String.data_append, List.append_assoc]
    apply listOccurs_append_left
    apply listOccurs_append_left
    exact listOccurs_of_startsWith _ _ (listStartsWith_append _ _)
  · unfold urlContains tmdbMovieUrl
    simp only [String.toList, String.data_append, List.append_assoc]
    apply listOccurs_append_left
    apply listOccurs_append_left
    apply listOccurs_append_left
    apply listOccurs_append_left
    exact listOccurs_of_startsWith _ _ (listStartsWith_append _ _)
  · unfold urlContains omdbUrl
    simp only [String.toList, String.data_append, List.append_assoc]
    apply listOccurs_append_left
    apply listOccurs_append_left
    exact listOccurs_of_startsWith _ _ (listStartsWith_append _ _)

/-- An empty search payload, for concrete evaluation. -/
def searchSample : TMDBSearchResponse := ⟨[]⟩

/-- C3. Contrary to the claim (and to the repository's own rate-limiter
integration checklist), on a cache miss every upstream client issues its
network call without ever calling `RateLimiter.acquire`: the effect traces
of all four operations contain a network call and no acquisition. On a
cache hit `getMovieDetails` performs only the cache probe, as the claim
says. -/
theorem clients_fetch_without_rate_limiter :
    ((searchMovies "KEY" "inception" none (.ok searchSample)).2.any Effect.isNet = true ∧
      (searchMovies "KEY" "inception" none (.ok searchSample)).2.any Effect.isAcquire = false) ∧
    ((getMovieDetails "KEY" 603 none (.ok tmdbSample)).2.any Effect.isNet = true ∧
      (getMovieDetails "KEY" 603 none (.ok tmdbSample)).2.any Effect.isAcquire = false) ∧
    ((getOMDbRatings (some "KEY") "tt0133093" none (.ok ⟨none, none⟩)).2.any Effect.isNet = true ∧
      (getOMDbRatings (some "KEY") "tt0133093" none (.ok ⟨none, none⟩)).2.any Effect.isAcquire = false) ∧
    ((getStreamingAvailability (some "KEY") 603 none (.ok none)).2.any Effect.isNet = true ∧
      (getStreamingAvailability (some "KEY") 603 none (.ok none)).2.any Effect.isAcquire = false) ∧
    (getMovieDetails "KEY" 603 (some tmdbSample) (.ok tmdbSample)).2 =
      [.cacheProbe ("tmdb:movie:" ++ toString 603) true] := by
  decide

/-! ## Rate limiter (`lib/rate-limiter.ts`)

The token-bucket class is embedded as a state machine. Mutations between
`await` points are atomic in the event-loop model, so each method becomes a
state transformer and an execution is an arbitrary interleaving of
`acquire` calls, timer callbacks (`refill` + `processPendingRequests`) and
`getState` observations, each stamped with the current clock value. The
state carries two histories for the fairness claim: the queued callers in
arrival order and the queued callers in admission order. -/

/-- `RateLimiterConfig` of `lib/rate-limiter.ts`. -/
structure RateLimiterConfig where
  maxTokens : Nat
  refillRate : Nat
  refillInterval : Nat
deriving DecidableEq, Repr

/-- The mutable fields of the `RateLimiter` class, plus the two histories.
Tokens are integers so that the non-negativity claim is a theorem, not a
typing artifact. -/
structure RLState where
  tokens : Int
  lastRefillTime : Int
  pendingRequests : List Nat
  enqueuedLog : List Nat
  admittedLog : List Nat
deriving DecidableEq, Repr

/-- The constructor: a full bucket. -/
def RLState.init (config : RateLimiterConfig) (now : Int) : RLState :=
  { tokens := config.maxTokens, lastRefillTime := now,
    pendingRequests := [], enqueuedLog := [], admittedLog := [] }

/-- `refill`: add `floor(elapsed / interval) * refillRate` tokens, capped at
`maxTokens`, only when at least one full interval elapsed. -/
def RLState.refill (config : RateLimiterConfig) (s : RLState) (now : Int) : RLState :=
  let timePassed := now - s.lastRefillTime
  let intervalsElapsed := Int.fdiv timePassed config.refillInterval
  if 0 < intervalsElapsed then
    let tokensToAdd := intervalsElapsed * config.refillRate
    { s with tokens := min (config.maxTokens : Int) (s.tokens + tokensToAdd),
             lastRefillTime := now }
  else s

/-- The `while (pending.length > 0 && tokens > 0)` loop body of
`processPendingRequests`: shift the head of the queue and resolve it. -/
def drainQueue : Int → List Nat → List Nat → Int × List Nat × List Nat
  | tokens, [], admitted => (tokens, [], admitted)
  | tokens, caller :: rest, admitted =>
    if 0 < tokens then drainQueue (tokens - 1) rest (admitted ++ [caller])
    else (tokens, caller :: rest, admitted)

/-- `processPendingRequests`. -/
def RLState.processPendingRequests (s : RLState) : RLState :=
  let r := drainQueue s.tokens s.pendingRequests s.admittedLog
  { s with tokens := r.1, pendingRequests := r.2.1, admittedLog := r.2.2 }

/-- `acquire`: refill, then either take a token and resolve immediately, or
push the caller's resolver onto the FIFO queue (and schedule a timer, which
appears as a separate `timer` step of the run). -/
def RLState.acquire (config : RateLimiterConfig) (s : RLState) (now : Int)
    (caller : Nat) : RLState :=
  let s := s.refill config now
  if 0 < s.tokens then { s with tokens := s.tokens - 1 }
  else { s with pendingRequests := s.pendingRequests ++ [caller],
                enqueuedLog := s.enqueuedLog ++ [caller] }

/-- A `setTimeout` callback firing: `refill()` then `processPendingRequests()`. -/
def RLState.timerFire (config : RateLimiterConfig) (s : RLState) (now : Int) : RLState :=
  (s.refill config now).processPendingRequests

/-- `getState`: recomputes the refill, then reports
`(availableTokens, pendingRequests.length)`. -/
def RLState.getState (config : RateLimiterConfig) (s : RLState) (now : Int) :
    RLState × Int × Nat :=
  let s := s.refill config now
  (s, s.tokens, s.pendingRequests.length)

/-- One event of an execution. -/
inductive RLOp where
  | acq (now : Int) (caller : Nat)
  | timer (now : Int)
  | observe (now : Int)
deriving DecidableEq, Repr

/-- Run a sequence of events against a state. -/
def runOps (config : RateLimiterConfig) : RLState → List RLOp → RLState
  | s, [] => s
  | s, op :: rest =>
    let s' := match op with
      | .acq now caller => s.acquire config now caller
      | .timer now => s.timerFire config now
      | .observe now => (s.getState config now).1
    runOps config s' rest

theorem drainQueue_tokens_bounds (tokens : Int) (pending admitted : List Nat)
    (h : 0 ≤ tokens) :
    0 ≤ (drainQueue tokens pending admitted).1 ∧
      (drainQueue tokens pending admitted).1 ≤ tokens := by
  induction pending generalizing tokens admitted with
  | nil => simpa [drainQueue]
  | cons c rest ih =>
    by_cases hc : 0 < tokens
    · have := ih (tokens - 1) (admitted ++ [c]) (by omega)
      simp only [drainQueue, if_pos hc]
      omega
    · simp only [drainQueue, if_neg hc]
      omega

theorem refill_tokens_bounds (config : RateLimiterConfig) (s : RLState) (now : Int)
    (h0 : 0 ≤ s.tokens) (h1 : s.tokens ≤ config.maxTokens) :
    0 ≤ (s.refill config now).tokens ∧
      (s.refill config now).tokens ≤ config.maxTokens := by
  unfold RLState.refill
  dsimp only
  split_ifs with hpos
  · have hadd : 0 ≤ (now - s.lastRefillTime).fdiv (config.refillInterval : Int) *
        (config.refillRate : Int) :=
      mul_nonneg (le_of_lt hpos) (by positivity)
    exact ⟨le_min (by positivity) (by omega), min_le_left _ _⟩
  · exact ⟨h0, h1⟩

/-- The token-bound invariant is preserved by every step. -/
theorem runOps_tokens_bounds (config : RateLimiterConfig) (ops : List RLOp)
    (s : RLState) (h0 : 0 ≤ s.tokens) (h1 : s.tokens ≤ config.maxTokens) :
    0 ≤ (runOps config s ops).tokens ∧
      (runOps config s ops).tokens ≤ config.maxTokens := by
  induction ops generalizing s with
  | nil => exact ⟨h0, h1⟩
  | cons op rest ih =>
    cases op with
    | acq now caller =>
      simp only [runOps]
      have hr := refill_tokens_bounds config s now h0 h1
      unfold RLState.acquire
      dsimp only
      split_ifs with hpos
      · exact ih _ (by dsimp only; omega) (by dsimp only; omega)
      · exact ih _ (by dsimp only; omega) (by dsimp only; omega)
    | timer now =>
      simp only [runOps]
      have hr := refill_tokens_bounds config s now h0 h1
      unfold RLState.timerFire RLState.processPendingRequests
      dsimp only
      have hd := drainQueue_tokens_bounds (s.refill config now).tokens
        (s.refill config now).pendingRequests (s.refill config now).admittedLog hr.1
      exact ih _ (by dsimp only; omega) (by dsimp only; omega)
    | observe now =>
      simp only [runOps]
      have hr := refill_tokens_bounds config s now h0 h1
      unfold RLState.getState
      dsimp only
      exact ih _ hr.1 hr.2

/-- C8. In every execution of the token bucket — any interleaving of
`acquire` calls, refill timer callbacks and `getState` observations, at
arbitrary clock values — the token count stays within
`0 ≤ availableTokens ≤ maxTokens`: refill discards any excess above the
capacity and admission only ever consumes a strictly positive count. -/
theorem rateLimiter_token_conservation (config : RateLimiterConfig)
    (startTime : Int) (ops : List RLOp) :
    0 ≤ (runOps config (RLState.init config startTime) ops).tokens ∧
      (runOps config (RLState.init config startTime) ops).tokens ≤ config.maxTokens :=
  runOps_tokens_bounds config ops _ (by simp [RLState.init])
    (by simp [RLState.init])

theorem drainQueue_fifo (tokens : Int) (pending admitted : List Nat) :
    (drainQueue tokens pending admitted).2.2 ++ (drainQueue tokens pending admitted).2.1 =
      admitted ++ pending := by
  induction pending generalizing tokens admitted with
  | nil => simp [drainQueue]
  | cons c rest ih =>
    by_cases hc : 0 < tokens
    · simp only [drainQueue, if_pos hc]
      rw [ih]
      simp
    · simp [drainQueue, if_neg hc]

/-- The FIFO invariant: the queued callers, in arrival order, are exactly
the admitted ones followed by the still-pending ones. -/
theorem runOps_fifo (config : RateLimiterConfig) (ops : List RLOp) (s : RLState)
    (h : s.enqueuedLog = s.admittedLog ++ s.pendingRequests) :
    (runOps config s ops).enqueuedLog =
      (runOps config s ops).admittedLog ++ (runOps config s ops).pendingRequests := by
  induction ops generalizing s with
  | nil => exact h
  | cons op rest ih =>
    cases op with
    | acq now caller =>
      simp only [runOps]
      apply ih
      unfold RLState.acquire RLState.refill
      dsimp only
      split_ifs
      all_goals
        first
          | exact h
          | (dsimp only; rw [h, List.append_assoc])
    | timer now =>
      simp only [runOps]
      apply ih
      unfold RLState.timerFire RLState.processPendingRequests RLState.refill
      dsimp only
      split_ifs
      all_goals
        try dsimp only
        rw [drainQueue_fifo]
        exact h
    | observe now =>
      simp only [runOps]
      apply ih
      unfold RLState.getState RLState.refill
      dsimp only
      split_ifs
      all_goals exact h

/-- C7. In every execution, queued callers are admitted in strict arrival
order, whatever the timer interleaving: at every point the arrival history
of queued callers equals the admission history followed by the current
queue, so no caller is ever resolved before one that was enqueued earlier. -/
theorem rateLimiter_fifo_fairness (config : RateLimiterConfig)
    (startTime : Int) (ops : List RLOp) :
    (runOps config (RLState.init config startTime) ops).enqueuedLog =
      (runOps config (RLState.init config startTime) ops).admittedLog ++
        (runOps config (RLState.init config startTime) ops).pendingRequests :=
  runOps_fifo config ops _ (by simp [RLState.init])

/-! ## Cache (`lib/cache.ts`)

The JavaScript `Map` is modelled as an association list in which `set`
replaces any existing binding. Timestamps are natural-number milliseconds;
`Date.now()` appears as an explicit `now` argument of each operation. -/

/-- `CacheEntry<T>` of `lib/cache.ts`. -/
structure CacheEntry (V : Type) where
  data : V
  timestamp : Nat
deriving DecidableEq, Repr

/-- The fixed cache TTL: 5 minutes in milliseconds. -/
def CACHE_TTL : Nat := 5 * 60 * 1000

/-- The `SimpleCache` class: its one field is the backing map. -/
structure SimpleCache (V : Type) where
  cache : List (String × CacheEntry V)
deriving DecidableEq, Repr

/-- `SimpleCache.set`: store the value with the current timestamp,
replacing any existing binding for the key. -/
def SimpleCache.set {V : Type} (c : SimpleCache V) (key : String) (data : V)
    (now : Nat) : SimpleCache V :=
  ⟨(key, ⟨data, now⟩) :: c.cache.filter (fun e => !(e.1 == key))⟩

/-- `SimpleCache.get`: absent when never set; when the entry is older than
the TTL (strictly), it is deleted and absent is returned; otherwise the
stored value. Returns the result together with the possibly-mutated cache. -/
def SimpleCache.get {V : Type} (c : SimpleCache V) (key : String) (now : Nat) :
    Option V × SimpleCache V :=
  match c.cache.lookup key with
  | none => (none, c)
  | some entry =>
    if now - entry.timestamp > CACHE_TTL then
      (none, ⟨c.cache.filter (fun e => !(e.1 == key))⟩)
    else (some entry.data, c)

theorem lookup_filter_ne {V : Type} (l : List (String × CacheEntry V)) (key : String) :
    (l.filter (fun e => !(e.1 == key))).lookup key = none := by
  induction l with
  | nil => rfl
  | cons e rest ih =>
    obtain ⟨k, v⟩ := e
    by_cases he : k = key
    · simp [List.filter_cons, he, ih]
    · have hk : (key == k) = false := beq_eq_false_iff_ne.mpr (Ne.symm he)
      simp [List.filter_cons, he, List.lookup, hk, ih]

/-- C9. Cache round trip: a `set` followed immediately by a `get` of the
same key returns the stored value; and once strictly more than the 5-minute
TTL has elapsed since the `set`, with no intervening `set`, the `get`
returns absent and evicts the entry from the map as a side effect. -/
theorem cache_roundtrip_and_expiry {V : Type} (c : SimpleCache V) (key : String)
    (v : V) (t₀ t₁ : Nat) :
    ((c.set key v t₀).get key t₀).1 = some v ∧
    (t₁ - t₀ > CACHE_TTL →
      ((c.set key v t₀).get key t₁).1 = none ∧
      (((c.set key v t₀).get key t₁).2).cache.lookup key = none) := by
  constructor
  · simp [SimpleCache.get, SimpleCache.set, List.lookup, CACHE_TTL]
  · intro ht
    simp [SimpleCache.get, SimpleCache.set, List.lookup, ht, lookup_filter_ne]

/-- C9 — witness: the theorem at the empty cache, key `"k"`, value `0`,
stored at time `0` and read back at times `0` and `300001`. -/
theorem cache_roundtrip_and_expiry_witness :
    ((SimpleCache.set ⟨[]⟩ "k" (0 : Nat) 0).get "k" 0).1 = some 0 ∧
    ((SimpleCache.set ⟨[]⟩ "k" (0 : Nat) 0).get "k" 300001).1 = none ∧
    (((SimpleCache.set ⟨[]⟩ "k" (0 : Nat) 0).get "k" 300001).2).cache.lookup "k" = none :=
  ⟨(cache_roundtrip_and_expiry ⟨[]⟩ "k" 0 0 300001).1,
    ((cache_roundtrip_and_expiry ⟨[]⟩ "k" 0 0 300001).2 (by decide)).1,
    ((cache_roundtrip_and_expiry ⟨[]⟩ "k" 0 0 300001).2 (by decide)).2⟩

/-! ## Health endpoint (`app/api/health/route.ts`) -/

/-- The `up`/`down` classification of one dependency. -/
inductive DepStatus where
  | up
  | down
deriving DecidableEq, Repr

/-- `DependencyStatus` of the health route. -/
structure DependencyStatus where
  status : DepStatus
  latency : Option Nat
deriving DecidableEq, Repr

/-- The aggregate health classification. -/
inductive HealthStatus where
  | healthy
  | degraded
  | unhealthy
deriving DecidableEq, Repr

/-- `HealthCheckResponse` of the health route; the ISO timestamp is
modelled as the millisecond clock value. -/
structure HealthCheckResponse where
  status : HealthStatus
  version : String
  tmdb : DependencyStatus
  omdb : DependencyStatus
  streaming : DependencyStatus
  timestamp : Nat
deriving DecidableEq, Repr

/-- The health result cache TTL: 60 seconds. -/
def HEALTH_CHECK_CACHE_TTL : Nat := 60000

/-- The status code the route answers with: 503 exactly for `unhealthy`. -/
def healthStatusCode (st : HealthStatus) : Nat :=
  if st = .unhealthy then 503 else 200

/-- The fallback body built in the route's `catch` block: `unhealthy`, all
three dependencies `down`, no latencies. -/
def healthErrorResponse (now : Nat) : HealthCheckResponse :=
  { status := .unhealthy, version := "1.0.0",
    tmdb := ⟨.down, none⟩, omdb := ⟨.down, none⟩, streaming := ⟨.down, none⟩,
    timestamp := now }

/-- Freshness of the module-level `cachedHealthCheck`. -/
def healthCacheFresh (cached : Option (HealthCheckResponse × Nat)) (now : Nat) : Bool :=
  match cached with
  | some (_, ts) => now - ts < HEALTH_CHECK_CACHE_TTL
  | none => false

/-- The `GET` handler of the health route as a pure function of the cache
cell, the clock and the outcome of `performHealthChecks` (an exception
from the probes appears as `Except.error`). Returns the response body, the
HTTP status and the new value of `cachedHealthCheck`. -/
def healthGET (cachedHealthCheck : Option (HealthCheckResponse × Nat)) (now : Nat)
    (checksOutcome : Except Unit HealthCheckResponse) :
    HealthCheckResponse × Nat × Option (HealthCheckResponse × Nat) :=
  let onMiss : HealthCheckResponse × Nat × Option (HealthCheckResponse × Nat) :=
    match checksOutcome with
    | .ok healthData =>
      (healthData, healthStatusCode healthData.status, some (healthData, now))
    | .error _ => (healthErrorResponse now, 503, cachedHealthCheck)
  match cachedHealthCheck with
  | some (data, ts) =>
    if now - ts < HEALTH_CHECK_CACHE_TTL then
      (data, healthStatusCode data.status, some (data, ts))
    else onMiss
  | none => onMiss

/-- C10. When the health probes themselves throw and no fresh cached result
exists, the route does not propagate the error: it answers 503 with
aggregate status `unhealthy` and all three dependencies reported `down`,
and it leaves the health cache cell untouched. -/
theorem healthGET_probe_exception_fallback
    (cached : Option (HealthCheckResponse × Nat)) (now : Nat)
    (hfresh : healthCacheFresh cached now = false) :
    healthGET cached now (.error ()) = (healthErrorResponse now, 503, cached) ∧
    (healthErrorResponse now).status = .unhealthy ∧
    (healthErrorResponse now).tmdb.status = .down ∧
    (healthErrorResponse now).omdb.status = .down ∧
    (healthErrorResponse now).streaming.status = .down := by
  refine ⟨?_, rfl, rfl, rfl, rfl⟩
  cases cached with
  | none => rfl
  | some entry =>
    obtain ⟨data, ts⟩ := entry
    have hlt : ¬(now - ts < HEALTH_CHECK_CACHE_TTL) := by
      simpa [healthCacheFresh] using hfresh
    simp [healthGET, hlt]

/-- C10 — witness: the theorem with an empty health cache at time `0`. -/
theorem healthGET_probe_exception_fallback_witness :
    healthGET none 0 (.error ()) = (healthErrorResponse 0, 503, none) ∧
    (healthErrorResponse 0).status = .unhealthy ∧
    (healthErrorResponse 0).tmdb.status = .down ∧
    (healthErrorResponse 0).omdb.status = .down ∧
    (healthErrorResponse 0).streaming.status = .down :=
  healthGET_probe_exception_fallback none 0 (by decide)

end StreamScout
